import Mathlib

/-!
Verification development for the common_MBDM repository: EMA-workbench
coursework notebooks that configure a Lotka-Volterra predator-prey model
for several simulation backends (native Python function, Excel, NetLogo,
Vensim/PySD), sample scenarios from declared real-valued parameter ranges,
and run batches of experiments per backend.

The repository contains only orchestration notebooks; the scenario-runner
component (generate_scenarios, run, run_all) described by the specification
is not present under the source tree, so those operations are modelled from
the specification text.  Everything that the notebooks do declare — model
names, uncertainty bounds, outcome variable names, the NetLogo run length,
the Vensim model equations and time settings, the per-backend experiment
batches of 50 scenarios each, and the global logging setup — is embedded
directly from the source.

Machine reals are modelled as rationals.
-/

namespace MBDM

/-- One uncertain input: a name and a sampling range, as declared by
RealParameter(name, lower, upper) in the notebooks. -/
structure Parameter where
  name : String
  lower : ℚ
  upper : ℚ
deriving DecidableEq, Repr

/-- A Scenario assigns a concrete value to each declared parameter name. -/
abbrev Scenario := List (String × ℚ)

/-- An Outcome Series maps each output variable name to the ordered sequence
of values of one simulation run. -/
abbrev OutcomeSeries := List (String × List ℚ)

/-- The error kinds of the runner, from the specification section 7. -/
inductive RunError where
  | invalidParameterError
  | backendExecutionError
  | shapeMismatchError
deriving DecidableEq, Repr

/-- A Backend Model is opaque to the runner beyond the single capability
simulate(scenario) -> Outcome Series; a backend that cannot complete a run
yields none. -/
structure Backend where
  name : String
  simulate : Scenario → Option OutcomeSeries

/-- Modelled from the spec: an Experiment Result pairs a Scenario with the
outcome (or recorded failure) of one backend on it; run_all accumulates one
such slot per (scenario, backend) pair. -/
structure ExperimentResult where
  scenario : Scenario
  backendName : String
  result : Except RunError OutcomeSeries

instance : DecidableEq (Except RunError OutcomeSeries) := fun a b =>
  match a, b with
  | .ok x, .ok y => decidable_of_iff (x = y) (by simp)
  | .error x, .error y => decidable_of_iff (x = y) (by simp)
  | .ok _, .error _ => isFalse (by simp)
  | .error _, .ok _ => isFalse (by simp)

instance : DecidableEq ExperimentResult := fun a b =>
  decidable_of_iff (a.scenario = b.scenario ∧ a.backendName = b.backendName ∧ a.result = b.result)
    (by cases a; cases b; simp_all)

/-- Modelled from the spec: generate_scenarios(parameters, count) draws count
independent samples, assigning every parameter a value inside its declared
bounds; the sampler is abstracted as a unit-interval source u taking the
sample index and the parameter index.  If any lower bound exceeds its upper
bound the call fails with InvalidParameterError before any sampling. -/
def generate_scenarios (params : List Parameter) (count : ℕ) (u : ℕ → ℕ → ℚ) :
    Except RunError (List Scenario) :=
  if params.all (fun p => p.lower ≤ p.upper) then
    .ok ((List.range count).map (fun i =>
      params.enum.map (fun jp => (jp.2.name, jp.2.lower + u i jp.1 * (jp.2.upper - jp.2.lower)))))
  else
    .error .invalidParameterError

/-- Modelled from the spec: run(scenario, backend) invokes the simulate
capability and converts an incomplete run into a BackendExecutionError. -/
def run (s : Scenario) (b : Backend) : Except RunError OutcomeSeries :=
  match b.simulate s with
  | some os => .ok os
  | none => .error .backendExecutionError

/-- The shape of an outcome series: each variable name with its number of
time steps. -/
def shapeOf (os : OutcomeSeries) : List (String × ℕ) :=
  os.map (fun p => (p.1, p.2.length))

/-- Modelled from the spec: the reference shape for a scenario is the shape
reported by the first backend that completes on it; backends disagreeing
with it are flagged rather than truncated or interpolated. -/
def refShape (backends : List Backend) (s : Scenario) : Option (List (String × ℕ)) :=
  ((backends.filterMap (fun b => b.simulate s)).head?).map shapeOf

/-- Modelled from the spec: the result slot of one backend on one scenario,
given the reference shape: a failed run is recorded as BackendExecutionError,
a completed run whose shape disagrees with the reference as
ShapeMismatchError, and otherwise the unmodified series is kept. -/
def mkSlot (ref : Option (List (String × ℕ))) (s : Scenario) (b : Backend) : ExperimentResult :=
  match b.simulate s with
  | none => ⟨s, b.name, .error .backendExecutionError⟩
  | some os =>
    match ref with
    | some r0 => if shapeOf os = r0 then ⟨s, b.name, .ok os⟩ else ⟨s, b.name, .error .shapeMismatchError⟩
    | none => ⟨s, b.name, .ok os⟩

/-- Modelled from the spec: all backends applied to one scenario, one slot
per backend. -/
def runScenario (backends : List Backend) (s : Scenario) : List ExperimentResult :=
  backends.map (mkSlot (refShape backends s) s)

/-- Modelled from the spec: run_all(scenarios, backends) executes the cross
product of scenarios and backends independently, recording per-pair slots. -/
def run_all (scenarios : List Scenario) (backends : List Backend) : List ExperimentResult :=
  scenarios.flatMap (runScenario backends)

/-- Modelled from the spec: the whole runner pipeline; an invalid parameter
set is fatal before sampling, so no backend run is executed. -/
def run_batch (params : List Parameter) (count : ℕ) (u : ℕ → ℕ → ℚ)
    (backends : List Backend) : Except RunError (List ExperimentResult) :=
  match generate_scenarios params count u with
  | .ok ss => .ok (run_all ss backends)
  | .error e => .error e

/-! ## Notebook configuration, embedded from the source

The multimodel notebook declares four model objects with their uncertainty
ranges and outcome variable names; it also records the Vensim model
documentation (equations, initial values, time settings) and the NetLogo
run length.
-/

/-- The static configuration of one notebook model object: its name, its
declared uncertainties and its declared outcome variable names. -/
structure ModelConfig where
  name : String
  uncertainties : List Parameter
  outcomeNames : List String
deriving DecidableEq, Repr

/-- The Python model object of the notebook. -/
def modelPython : ModelConfig :=
  ⟨"PredPreyPython",
   [⟨"prey_birth_rate", 0.015, 0.035⟩,
    ⟨"predation_rate", 0.0005, 0.003⟩,
    ⟨"predator_efficiency", 0.001, 0.004⟩,
    ⟨"predator_loss_rate", 0.04, 0.08⟩],
   ["TIME", "predators", "prey"]⟩

/-- The Excel model object of the notebook: the uncertainties are spreadsheet
cells B3 to B6 and the outcomes are spreadsheet row ranges. -/
def modelExcel : ModelConfig :=
  ⟨"PredPreyExcel",
   [⟨"B3", 0.015, 0.035⟩,
    ⟨"B4", 0.0005, 0.003⟩,
    ⟨"B5", 0.001, 0.004⟩,
    ⟨"B6", 0.04, 0.08⟩],
   ["B14:BDF14", "B18:BDF18", "B17:BDF17"]⟩

/-- The NetLogo model object of the notebook. -/
def modelNetlogo : ModelConfig :=
  ⟨"predprey",
   [⟨"prey_birth_rate", 0.015, 0.035⟩,
    ⟨"predation_rate", 0.0005, 0.003⟩,
    ⟨"predator_efficiency", 0.001, 0.004⟩,
    ⟨"predator_loss_rate", 0.04, 0.08⟩],
   ["TIME", "predators", "prey"]⟩

/-- The notebook sets run_length = 100 on the NetLogo model object. -/
def netlogoRunLength : ℕ := 100

/-- The Vensim/PySD model object of the notebook. -/
def modelVensim : ModelConfig :=
  ⟨"PredPrey",
   [⟨"prey_birth_rate", 0.015, 0.035⟩,
    ⟨"predation_rate", 0.0005, 0.003⟩,
    ⟨"predator_efficiency", 0.001, 0.004⟩,
    ⟨"predator_loss_rate", 0.04, 0.08⟩],
   ["TIME", "predators", "prey"]⟩

/-- FINAL_TIME = 365, from the Vensim model documentation recorded in the
notebook (also the Final time row of the parameter table). -/
def vensimFinalTime : ℚ := 365

/-- INITIAL_TIME = 0, from the Vensim model documentation. -/
def vensimInitialTime : ℚ := 0

/-- TIME_STEP = 0.25, from the Vensim model documentation (also the dt row
of the parameter table); SAVEPER equals TIME_STEP. -/
def vensimTimeStep : ℚ := 0.25

/-- The number of saved time points of a run with the recorded time
settings: one per TIME_STEP from INITIAL_TIME to FINAL_TIME inclusive. -/
def numTimePoints : ℕ :=
  ((vensimFinalTime - vensimInitialTime) / vensimTimeStep).num.toNat + 1

/-- The numeric index of a spreadsheet column label, with A = 1. -/
def colValue (s : String) : ℕ :=
  s.data.foldl (fun a c => a * 26 + (c.toNat - 'A'.toNat + 1)) 0

/-- The column labels at the two ends of a spreadsheet range such as
B14:BDF14. -/
def rangeColSpan (s : String) : String × String :=
  let cs := s.data
  (⟨cs.takeWhile (fun c => c.isAlpha)⟩,
   ⟨((cs.dropWhile (fun c => c ≠ ':')).drop 1).takeWhile (fun c => c.isAlpha)⟩)

/-- The number of cells covered by a single-row spreadsheet range. -/
def rangeWidth (s : String) : ℕ :=
  colValue (rangeColSpan s).2 - colValue (rangeColSpan s).1 + 1

/-! ## The predator-prey dynamics, embedded from the Vensim model
documentation recorded in the notebook

prey_growth = prey_birth_rate * prey, prey_loss = predation_rate *
predators * prey, predator_growth = predator_efficiency * predators * prey,
predator_loss = predator_loss_rate * predators; prey = INTEG(prey_growth -
prey_loss, initial_prey = 50), predators = INTEG(predator_growth -
predator_loss, initial_predators = 20); Euler integration with TIME_STEP.
-/

/-- One Euler step of the predator-prey system on the state
(prey, predators). -/
def predPreyStep (pbr pr pe plr : ℚ) (st : ℚ × ℚ) : ℚ × ℚ :=
  (st.1 + (pbr * st.1 - pr * st.2 * st.1) * vensimTimeStep,
   st.2 + (pe * st.2 * st.1 - plr * st.2) * vensimTimeStep)

/-- The state after n Euler steps, from initial_prey = 50 and
initial_predators = 20. -/
def predPreyState (pbr pr pe plr : ℚ) (n : ℕ) : ℚ × ℚ :=
  (predPreyStep pbr pr pe plr)^[n] (50, 20)

/-- The scenario value of one parameter, with the default constant of the
Vensim model documentation when the scenario does not assign it. -/
def scenVal (s : Scenario) (nm : String) (dflt : ℚ) : ℚ :=
  match s.lookup nm with
  | some v => v
  | none => dflt

/-- The native predator-prey function backend: given a scenario, it returns
the TIME, predators and prey series over nPoints saved time points.
Default constants prey_birth_rate = 0.025, predation_rate = 0.0015,
predator_efficiency = 0.002, predator_loss_rate = 0.06 are those of the
Vensim model documentation. -/
def PredPrey (s : Scenario) (nPoints : ℕ) : OutcomeSeries :=
  let pbr := scenVal s "prey_birth_rate" 0.025
  let pr := scenVal s "predation_rate" 0.0015
  let pe := scenVal s "predator_efficiency" 0.002
  let plr := scenVal s "predator_loss_rate" 0.06
  let states := (List.range nPoints).map (predPreyState pbr pr pe plr)
  [("TIME", (List.range nPoints).map (fun n => vensimInitialTime + n * vensimTimeStep)),
   ("predators", states.map (fun st => st.2)),
   ("prey", states.map (fun st => st.1))]

/-! ## Replication-aware backends, for determinism claims -/

/-- A backend whose simulate capability also receives the invocation index
(the replication counter); a deterministic backend ignores it. -/
structure ReplicatedBackend where
  name : String
  simulateRep : Scenario → ℕ → Option OutcomeSeries

/-- A backend is deterministic when the outcome of a scenario does not
depend on the invocation index. -/
def deterministicBackend (b : ReplicatedBackend) : Prop :=
  ∀ s i j, b.simulateRep s i = b.simulateRep s j

/-- Modelled from the spec: one invocation of run on a replication-aware
backend, recording the invocation index. -/
def runRep (s : Scenario) (b : ReplicatedBackend) (invocation : ℕ) :
    Except RunError OutcomeSeries :=
  match b.simulateRep s invocation with
  | some os => .ok os
  | none => .error .backendExecutionError

/-- The native Python function backend of the notebook, as a
replication-aware backend: a fixed function of the scenario alone. -/
def predPreyPythonBackend : ReplicatedBackend :=
  ⟨"PredPreyPython", fun s _ => some (PredPrey s numTimePoints)⟩

/-! ## Global logging state, embedded from the source

Both notebooks call ema_logging.log_to_stderr(ema_logging.INFO) at the top:
a process-wide mutation of the global logging configuration.
-/

/-- The INFO log level constant (Python logging level 20). -/
def INFO : ℕ := 20

/-- The process-wide logging state: the configured level, or none when
logging has not been configured. -/
structure LogState where
  level : Option ℕ
deriving DecidableEq, Repr

/-- ema_logging.log_to_stderr(lvl): overwrites the process-wide logging
configuration with the given level. -/
def log_to_stderr (lvl : ℕ) (_g : LogState) : LogState := ⟨some lvl⟩

/-- The logging setup step executed by the notebooks at initialization. -/
def notebookLoggingSetup (g : LogState) : LogState := log_to_stderr INFO g

/-! ## The experiment batches the notebook actually runs

Each perform_experiments(model, 50) call samples 50 fresh scenarios for
that one model and runs them on it; the sampler is abstracted as a stream
of scenarios consumed left to right across the calls.
-/

/-- One experiment actually executed: a scenario paired with the name of
the model it ran on. -/
structure Experiment where
  scenario : Scenario
  modelName : String

/-- perform_experiments(model, n): consumes the next n scenarios of the
sampler stream, pairing each with the model, and returns the batch together
with the advanced stream position. -/
def perform_experiments (stream : ℕ → Scenario) (model : String) (n start : ℕ) :
    List Experiment × ℕ :=
  ((List.range n).map (fun i => ⟨stream (start + i), model⟩), start + n)

/-- The sequence of experiments executed by the multimodel notebook: a
batch of 50 for the Python model, then 50 for the Excel model, then 50 for
the NetLogo model (the Vensim batch fails before execution and is commented
out or errors in the notebook). -/
def notebookExperiments (stream : ℕ → Scenario) : List Experiment :=
  let pP := perform_experiments stream "PredPreyPython" 50 0
  let pE := perform_experiments stream "PredPreyExcel" 50 pP.2
  let pN := perform_experiments stream "predprey" 50 pE.2
  pP.1 ++ pE.1 ++ pN.1

/-! ## Concrete fixtures used to instantiate the theorems -/

/-- A tiny backend returning a two-step prey series on every scenario. -/
def wPythonBackend : Backend := ⟨"python", fun _ => some [("prey", [1, 2])]⟩

/-- A tiny backend returning a one-step prey series on every scenario: its
shape disagrees with wPythonBackend. -/
def wShortBackend : Backend := ⟨"netlogo", fun _ => some [("prey", [3])]⟩

/-- A tiny backend that cannot complete any run. -/
def wFailingBackend : Backend := ⟨"excel", fun _ => none⟩

/-- A concrete injective sampler stream: the k-th drawn scenario assigns k
to the single parameter x. -/
def wStream (k : ℕ) : Scenario := [("x", (k : ℚ))]

/-! ## Helper lemmas about the runner -/

/-- A result slot always records the scenario and backend it belongs to,
whatever the outcome. -/
lemma mkSlot_scenario (ref : Option (List (String × ℕ))) (s : Scenario) (b : Backend) :
    (mkSlot ref s b).scenario = s := by
  unfold mkSlot
  cases b.simulate s with
  | none => rfl
  | some os =>
    cases ref with
    | none => rfl
    | some r0 =>
      by_cases h : shapeOf os = r0 <;> simp [h]

/-- A result slot always records the name of the backend it belongs to. -/
lemma mkSlot_backendName (ref : Option (List (String × ℕ))) (s : Scenario) (b : Backend) :
    (mkSlot ref s b).backendName = b.name := by
  unfold mkSlot
  cases b.simulate s with
  | none => rfl
  | some os =>
    cases ref with
    | none => rfl
    | some r0 =>
      by_cases h : shapeOf os = r0 <;> simp [h]

/-- The slots of one scenario project to one (scenario, backend name) pair
per backend, in backend order. -/
lemma runScenario_proj (bs : List Backend) (s : Scenario) :
    (runScenario bs s).map (fun r => (r.scenario, r.backendName)) =
      bs.map (fun b => (s, b.name)) := by
  unfold runScenario
  rw [List.map_map]
  exact List.map_congr_left (fun b _ => by
    simp [Function.comp, mkSlot_scenario, mkSlot_backendName])

/-- run_all projects to exactly the cross product of scenarios and backend
names, in scenario-major order. -/
lemma run_all_proj (ss : List Scenario) (bs : List Backend) :
    (run_all ss bs).map (fun r => (r.scenario, r.backendName)) =
      ss.flatMap (fun s => bs.map (fun b => (s, b.name))) := by
  unfold run_all
  rw [List.map_flatMap]
  exact List.flatMap_congr (fun s _ => runScenario_proj bs s)

/-- Each scenario contributes one slot per backend. -/
lemma runScenario_length (bs : List Backend) (s : Scenario) :
    (runScenario bs s).length = bs.length := by
  simp [runScenario]

/-- run_all produces exactly one slot per (scenario, backend) pair. -/
lemma run_all_length (ss : List Scenario) (bs : List Backend) :
    (run_all ss bs).length = ss.length * bs.length := by
  unfold run_all
  rw [List.length_flatMap]
  have h : ss.map (List.length ∘ runScenario bs) = ss.map (fun _ => bs.length) :=
    List.map_congr_left (fun s _ => runScenario_length bs s)
  rw [h, List.map_const', List.sum_replicate, smul_eq_mul]

/-- run_all distributes over scenario-list concatenation: each scenario
block of slots is computed independently of the other scenarios. -/
lemma run_all_append (ss1 ss2 : List Scenario) (bs : List Backend) :
    run_all (ss1 ++ ss2) bs = run_all ss1 bs ++ run_all ss2 bs := by
  unfold run_all
  exact List.flatMap_append ..

/-- The slot block of the scenario at the head of the list. -/
lemma run_all_cons (s : Scenario) (ss : List Scenario) (bs : List Backend) :
    run_all (s :: ss) bs = runScenario bs s ++ run_all ss bs := by
  unfold run_all
  exact List.flatMap_cons ..

/-- A backend that fails on a scenario contributes nothing to the reference
shape of that scenario: the other slots are as if it were absent. -/
lemma refShape_of_fail (bs1 bs2 : List Backend) (b : Backend) (s : Scenario)
    (hb : b.simulate s = none) :
    refShape (bs1 ++ b :: bs2) s = refShape (bs1 ++ bs2) s := by
  unfold refShape
  rw [List.filterMap_append, List.filterMap_cons, hb, List.filterMap_append]

/-- A backend that cannot complete is recorded as a BackendExecutionError
slot, whatever the reference shape. -/
lemma mkSlot_of_fail (ref : Option (List (String × ℕ))) (s : Scenario) (b : Backend)
    (hb : b.simulate s = none) :
    mkSlot ref s b = ⟨s, b.name, .error .backendExecutionError⟩ := by
  unfold mkSlot
  rw [hb]

/-! ## The claims -/

/-- C1: for every scenario list and backend list, run_all produces one
Experiment Result slot per (scenario, backend) pair of the cross product, in
scenario-major order, and hence exactly scenarios times backends slots (100
for 50 scenarios and 2 backends); failures occupy their slot explicitly, so
no entry is silently dropped. -/
theorem claim1_run_all_cross_product (ss : List Scenario) (bs : List Backend) :
    (run_all ss bs).length = ss.length * bs.length ∧
    (run_all ss bs).map (fun r => (r.scenario, r.backendName)) =
      ss.flatMap (fun s => bs.map (fun b => (s, b.name))) :=
  ⟨run_all_length ss bs, run_all_proj ss bs⟩

/-- C1 witness: one scenario and one backend give exactly one slot, carrying
that scenario and that backend name. -/
theorem claim1_witness :
    (run_all [([] : Scenario)] [wPythonBackend]).length =
      [([] : Scenario)].length * [wPythonBackend].length ∧
    (run_all [([] : Scenario)] [wPythonBackend]).map (fun r => (r.scenario, r.backendName)) =
      [([] : Scenario)].flatMap (fun s => [wPythonBackend].map (fun b => (s, b.name))) :=
  claim1_run_all_cross_product [([] : Scenario)] [wPythonBackend]

/-- C3: when two backends complete a scenario with series of different
shapes, the runner keeps the reference series unmodified (no truncation or
interpolation), records a ShapeMismatchError in the disagreeing slot of
that one pair, and the slot blocks of all other scenarios are computed
exactly as they would be on their own. -/
theorem claim3_shape_mismatch_isolated (b1 b2 : Backend) (s : Scenario)
    (o1 o2 : OutcomeSeries) (ss1 ss2 : List Scenario)
    (h1 : b1.simulate s = some o1) (h2 : b2.simulate s = some o2)
    (hsh : shapeOf o2 ≠ shapeOf o1) :
    runScenario [b1, b2] s =
      [⟨s, b1.name, .ok o1⟩, ⟨s, b2.name, .error .shapeMismatchError⟩] ∧
    run_all (ss1 ++ s :: ss2) [b1, b2] =
      run_all ss1 [b1, b2] ++ runScenario [b1, b2] s ++ run_all ss2 [b1, b2] := by
  constructor
  · have href : refShape [b1, b2] s = some (shapeOf o1) := by
      simp [refShape, List.filterMap_cons, h1, h2]
    simp [runScenario, href, mkSlot, h1, h2, hsh]
  · rw [run_all_append, run_all_cons, List.append_assoc]

/-- C3 witness: the mismatch between the two-step and the one-step backend
on the empty scenario is recorded in the second slot only. -/
theorem claim3_witness :
    runScenario [wPythonBackend, wShortBackend] [] =
      [⟨[], "python", .ok [("prey", [1, 2])]⟩,
       ⟨[], "netlogo", .error .shapeMismatchError⟩] ∧
    run_all ([] ++ [] :: []) [wPythonBackend, wShortBackend] =
      run_all [] [wPythonBackend, wShortBackend]
        ++ runScenario [wPythonBackend, wShortBackend] []
        ++ run_all [] [wPythonBackend, wShortBackend] :=
  claim3_shape_mismatch_isolated wPythonBackend wShortBackend []
    [("prey", [1, 2])] [("prey", [3])] [] [] rfl rfl (by decide)

/-- C4: a backend that cannot complete one scenario never aborts the batch:
its slot is recorded as a BackendExecutionError, every other slot of that
scenario is exactly what it would be with the failing backend absent, and
the batch still holds one slot per (scenario, backend) pair. -/
theorem claim4_backend_failure_isolated (bs1 bs2 : List Backend) (b : Backend)
    (s : Scenario) (ss : List Scenario) (hb : b.simulate s = none) :
    runScenario (bs1 ++ b :: bs2) s =
      (runScenario (bs1 ++ bs2) s).take bs1.length
        ++ ⟨s, b.name, .error .backendExecutionError⟩
          :: (runScenario (bs1 ++ bs2) s).drop bs1.length ∧
    (run_all ss (bs1 ++ b :: bs2)).length = ss.length * (bs1 ++ b :: bs2).length := by
  refine ⟨?_, run_all_length ss (bs1 ++ b :: bs2)⟩
  have href := refShape_of_fail bs1 bs2 b s hb
  unfold runScenario
  rw [href, List.map_append, List.map_cons, mkSlot_of_fail _ s b hb,
    List.map_append,
    List.take_left' (by rw [List.length_map]),
    List.drop_left' (by rw [List.length_map])]

/-- C4 witness: the failing backend in second position is recorded as a
BackendExecutionError while the first backend keeps its result and the
batch is complete. -/
theorem claim4_witness :
    runScenario ([wPythonBackend] ++ wFailingBackend :: []) [] =
      (runScenario ([wPythonBackend] ++ []) []).take 1
        ++ ⟨[], "excel", .error .backendExecutionError⟩
          :: (runScenario ([wPythonBackend] ++ []) []).drop 1 ∧
    (run_all [([] : Scenario)] ([wPythonBackend] ++ wFailingBackend :: [])).length =
      [([] : Scenario)].length * ([wPythonBackend] ++ wFailingBackend :: []).length :=
  claim4_backend_failure_isolated [wPythonBackend] [] wFailingBackend [] [[]] rfl

/-- C5: on a parameter set whose bounds are all well ordered, and a sampler
drawing from the unit interval, generate_scenarios returns exactly count
scenarios; each scenario assigns one value per declared parameter, and each
assigned value v of a parameter satisfies lower ≤ v ≤ upper. -/
theorem claim5_generate_scenarios_bounds (params : List Parameter) (count : ℕ)
    (u : ℕ → ℕ → ℚ)
    (hu : ∀ i j, 0 ≤ u i j ∧ u i j ≤ 1)
    (hp : ∀ p ∈ params, p.lower ≤ p.upper) :
    ∃ ss, generate_scenarios params count u = .ok ss ∧ ss.length = count ∧
      ∀ sc ∈ ss, sc.length = params.length ∧
        ∀ pr ∈ sc, ∃ p ∈ params, pr.1 = p.name ∧ p.lower ≤ pr.2 ∧ pr.2 ≤ p.upper := by
  have hall : params.all (fun p => p.lower ≤ p.upper) = true := by
    rw [List.all_eq_true]
    intro p hpmem
    exact decide_eq_true (hp p hpmem)
  have hgen : generate_scenarios params count u =
      .ok ((List.range count).map (fun i =>
        params.enum.map (fun jp =>
          (jp.2.name, jp.2.lower + u i jp.1 * (jp.2.upper - jp.2.lower))))) := by
    unfold generate_scenarios
    rw [if_pos hall]
  refine ⟨_, hgen, by simp, ?_⟩
  intro sc hsc
  rw [List.mem_map] at hsc
  obtain ⟨i, _, rfl⟩ := hsc
  refine ⟨by simp, ?_⟩
  intro pr hpr
  rw [List.mem_map] at hpr
  obtain ⟨jp, hjp, rfl⟩ := hpr
  have hpmem : jp.2 ∈ params := by
    have h2 := List.mem_map_of_mem Prod.snd hjp
    rwa [List.enum_map_snd] at h2
  have hl := hp jp.2 hpmem
  refine ⟨jp.2, hpmem, rfl, ?_, ?_⟩ <;> dsimp only
  · have hnn : 0 ≤ u i jp.1 * (jp.2.upper - jp.2.lower) :=
      mul_nonneg (hu i jp.1).1 (sub_nonneg.mpr hl)
    linarith
  · have hle : u i jp.1 * (jp.2.upper - jp.2.lower) ≤ jp.2.upper - jp.2.lower :=
      mul_le_of_le_one_left (sub_nonneg.mpr hl) (hu i jp.1).2
    linarith

/-- C5 witness: one parameter with bounds 0 and 1, two scenarios drawn with
the constant sampler 0. -/
theorem claim5_witness :
    (∀ i j, 0 ≤ (fun (_ _ : ℕ) => (0 : ℚ)) i j ∧ (fun (_ _ : ℕ) => (0 : ℚ)) i j ≤ 1) ∧
    (∃ ss, generate_scenarios [⟨"prey_birth_rate", 0, 1⟩] 2 (fun _ _ => 0) = .ok ss ∧
      ss.length = 2 ∧
      ∀ sc ∈ ss, sc.length = [(⟨"prey_birth_rate", 0, 1⟩ : Parameter)].length ∧
        ∀ pr ∈ sc, ∃ p ∈ [(⟨"prey_birth_rate", 0, 1⟩ : Parameter)],
          pr.1 = p.name ∧ p.lower ≤ pr.2 ∧ pr.2 ≤ p.upper) :=
  ⟨fun _ _ => ⟨le_refl 0, zero_le_one⟩,
   claim5_generate_scenarios_bounds [⟨"prey_birth_rate", 0, 1⟩] 2 (fun _ _ => 0)
     (fun _ _ => ⟨le_refl 0, zero_le_one⟩) (by decide)⟩

/-- C6: when some parameter has lower bound above its upper bound,
generate_scenarios fails with InvalidParameterError for every sampler (the
failure does not depend on any drawn sample), and the whole pipeline
returns that error for every backend list, so no run is executed. -/
theorem claim6_invalid_parameter_fatal (params : List Parameter) (count : ℕ)
    (hbad : ∃ p ∈ params, p.upper < p.lower) :
    ∀ (u : ℕ → ℕ → ℚ) (backends : List Backend),
      generate_scenarios params count u = .error .invalidParameterError ∧
      run_batch params count u backends = .error .invalidParameterError := by
  intro u backends
  obtain ⟨p, hpmem, hlt⟩ := hbad
  have hall : ¬ params.all (fun q => q.lower ≤ q.upper) = true := by
    rw [List.all_eq_true]
    intro h
    exact absurd (of_decide_eq_true (h p hpmem)) (not_le.mpr hlt)
  have hgen : generate_scenarios params count u = .error .invalidParameterError := by
    unfold generate_scenarios
    rw [if_neg hall]
  refine ⟨hgen, ?_⟩
  unfold run_batch
  rw [hgen]

/-- C6 witness: a parameter with lower bound 1 above upper bound 0 makes
the pipeline fail with InvalidParameterError with no run executed. -/
theorem claim6_witness :
    generate_scenarios [⟨"bad", 1, 0⟩] 50 (fun _ _ => 0) = .error .invalidParameterError ∧
    run_batch [⟨"bad", 1, 0⟩] 50 (fun _ _ => 0) [] = .error .invalidParameterError :=
  claim6_invalid_parameter_fatal [⟨"bad", 1, 0⟩] 50
    ⟨⟨"bad", 1, 0⟩, List.mem_singleton.mpr rfl, zero_lt_one⟩ (fun _ _ => 0) []

/-- C7: running the same scenario twice on a deterministic backend (one
whose simulate capability ignores the invocation index) yields identical
Outcome Series. -/
theorem claim7_deterministic_run_idempotent (b : ReplicatedBackend)
    (hdet : deterministicBackend b) (s : Scenario) (i j : ℕ) :
    runRep s b i = runRep s b j := by
  unfold runRep
  rw [hdet s i j]

/-- C7 witness: the native predator-prey function backend is deterministic
and two invocations of run on the empty scenario agree. -/
theorem claim7_witness :
    deterministicBackend predPreyPythonBackend ∧
    runRep [] predPreyPythonBackend 0 = runRep [] predPreyPythonBackend 1 :=
  ⟨fun _ _ _ => rfl,
   claim7_deterministic_run_idempotent predPreyPythonBackend (fun _ _ _ => rfl) [] 0 1⟩

/-- C9 counterexample: the logging setup step the notebooks execute at
initialization changes the process-wide logging state (from unconfigured to
level INFO), so the program does perform an implicit process-wide mutation
of global logging state rather than receiving an explicit configuration
object. -/
theorem claim9_counterexample :
    notebookLoggingSetup ⟨none⟩ ≠ ⟨none⟩ ∧
    (notebookLoggingSetup ⟨none⟩).level = some INFO := by
  exact ⟨by decide, rfl⟩

/-- C9 amended: the notebooks configure logging by calling
ema_logging.log_to_stderr(ema_logging.INFO) at initialization, which
unconditionally overwrites the process-wide logging state with level INFO,
whatever it was before. -/
theorem claim9_amended_global_overwrite (g : LogState) :
    notebookLoggingSetup g = ⟨some INFO⟩ :=
  rfl

/-- C9 amended witness: starting from a logging state at level 5, the setup
step leaves the global state at level INFO. -/
theorem claim9_amended_witness :
    notebookLoggingSetup ⟨some 5⟩ = ⟨some INFO⟩ :=
  claim9_amended_global_overwrite ⟨some 5⟩

/-- The time settings of the notebook (FINAL_TIME 365, INITIAL_TIME 0,
TIME_STEP 0.25) yield 1461 saved time points. -/
lemma numTimePoints_eq : numTimePoints = 1461 := by
  have h : (vensimFinalTime - vensimInitialTime) / vensimTimeStep = (1460 : ℚ) := by
    unfold vensimFinalTime vensimInitialTime vensimTimeStep
    norm_num
  unfold numTimePoints
  rw [h]
  norm_num [Rat.num_ofNat]
  decide

/-- C2 counterexample: the Excel model object declares outcome variable
names (spreadsheet row ranges) that differ as a set from the Python model
object, and the NetLogo model object is configured with run_length 100, so
even one saved point per step plus the initial one (101 points) cannot
match the 1461 time points of the native time settings; outcome series are
therefore not name-and-shape comparable across all configured backends. -/
theorem claim2_counterexample :
    modelExcel.outcomeNames.toFinset ≠ modelPython.outcomeNames.toFinset ∧
    netlogoRunLength + 1 ≠ numTimePoints := by
  refine ⟨by decide, ?_⟩
  rw [numTimePoints_eq]
  decide

/-- C2 amended: the Python, NetLogo and Vensim model objects declare
identical outcome variable names; each Excel outcome range spans exactly as
many cells as the native time settings produce time points (1461); and the
Excel uncertainty bounds coincide with the Python ones (only the names are
spreadsheet cells); comparability across all backends holds only up to that
renaming and not for the NetLogo series length. -/
theorem claim2_amended_partial_comparability :
    modelPython.outcomeNames = modelNetlogo.outcomeNames ∧
    modelPython.outcomeNames = modelVensim.outcomeNames ∧
    modelExcel.outcomeNames.map rangeWidth = List.replicate 3 numTimePoints ∧
    modelPython.uncertainties.map (fun p => (p.lower, p.upper)) =
      modelExcel.uncertainties.map (fun p => (p.lower, p.upper)) := by
  refine ⟨rfl, rfl, ?_, rfl⟩
  rw [numTimePoints_eq]
  decide

/-- C10: the multimodel notebook runs one batch of 50 experiments per
backend, consuming fresh samples for each batch: the executed experiments
are 50 slots for the Python model followed by 50 for the Excel model and 50
for the NetLogo model, and when the sampler never repeats a draw, no
scenario is executed against more than one backend (all 150 scenarios are
pairwise distinct). -/
theorem claim10_per_backend_batches (stream : ℕ → Scenario)
    (hinj : Function.Injective stream) :
    (notebookExperiments stream).map (fun e => e.modelName) =
      List.replicate 50 "PredPreyPython" ++ List.replicate 50 "PredPreyExcel"
        ++ List.replicate 50 "predprey" ∧
    (notebookExperiments stream).Pairwise (fun e1 e2 => e1.scenario ≠ e2.scenario) := by
  constructor
  · simp [notebookExperiments, perform_experiments, List.map_map, Function.comp_def,
      List.map_const']
  · have hsc : (notebookExperiments stream).map (fun e => e.scenario) =
        (List.range 150).map stream := by
      rw [show (150 : ℕ) = 100 + 50 from rfl, List.range_add,
        show (100 : ℕ) = 50 + 50 from rfl, List.range_add]
      simp [notebookExperiments, perform_experiments, List.map_map, Function.comp_def]
    have hpw : ((List.range 150).map stream).Pairwise (· ≠ ·) := by
      rw [List.pairwise_map]
      exact (List.pairwise_lt_range 150).imp (fun h => hinj.ne (Nat.ne_of_lt h))
    have hpw2 : ((notebookExperiments stream).map (fun e => e.scenario)).Pairwise (· ≠ ·) := by
      rw [hsc]
      exact hpw
    rw [List.pairwise_map] at hpw2
    exact hpw2

/-- The concrete sampler stream never repeats a draw. -/
lemma wStream_inj : Function.Injective wStream := by
  intro a b h
  simpa [wStream] using h

/-- C10 witness: with the concrete injective sampler stream, the notebook
batches are 50 per backend and no scenario appears twice. -/
theorem claim10_witness :
    Function.Injective wStream ∧
    ((notebookExperiments wStream).map (fun e => e.modelName) =
      List.replicate 50 "PredPreyPython" ++ List.replicate 50 "PredPreyExcel"
        ++ List.replicate 50 "predprey" ∧
    (notebookExperiments wStream).Pairwise (fun e1 e2 => e1.scenario ≠ e2.scenario)) :=
  ⟨wStream_inj, claim10_per_backend_batches wStream wStream_inj⟩

end MBDM
